import Mathlib

/-!
# InsightGuard — verification of the ingestion/analytics specification

Shallow embedding of the InsightGuard repository: the Neo4j schema
migration files (transliterated statement by statement), the
ingestion/graph-query engine (modelled from the specification, since the
backend is not part of the visible source), and the Weekly DHS dashboard
page's client-side logic (embedded from the React source).
-/

namespace InsightGuard

/-! ## Schema migration files

Each `.cypher` migration file is a list of `CREATE CONSTRAINT ... IS UNIQUE`
and `CREATE INDEX` statements.  We embed each statement with its name, node
label and property. -/

/-- One statement of a `.cypher` migration file: either a uniqueness
constraint or a (non-unique) secondary index on `property` of nodes with
`label`. -/
inductive SchemaStmt where
  | uniqueConstraint (name label property : String)
  | secondaryIndex (name label property : String)
deriving DecidableEq

/-- The Weekly DHS Network Schema migration file, statement by statement. -/
def weeklyDhsSchema : List SchemaStmt := [
  .uniqueConstraint "weekly_dhs_host_ip_unique" "WeeklyDHSHost" "ip",
  .uniqueConstraint "weekly_dhs_service_id_unique" "WeeklyDHSService" "service_id",
  .uniqueConstraint "weekly_dhs_vuln_plugin_unique" "WeeklyDHSVulnerability" "weekly_vuln_id",
  .uniqueConstraint "weekly_dhs_scan_unique" "WeeklyDHSScan" "scan_id",
  .uniqueConstraint "weekly_dhs_obs_unique" "WeeklyDHSObservation" "obs_id",
  .secondaryIndex "weekly_dhs_vuln_severity_index" "WeeklyDHSVulnerability" "severity",
  .secondaryIndex "weekly_dhs_scan_date_index" "WeeklyDHSScan" "scan_date"]

/-- The Monthly DHS Web Application Schema migration file. -/
def monthlyDhsWebSchema : List SchemaStmt := [
  .uniqueConstraint "monthly_dhs_web_app_unique" "MonthlyDHSWebApp" "app_id",
  .uniqueConstraint "monthly_dhs_web_vuln_unique" "MonthlyDHSWebVulnerability" "web_vuln_id",
  .uniqueConstraint "monthly_dhs_web_scan_unique" "MonthlyDHSWebScan" "scan_id",
  .uniqueConstraint "monthly_dhs_web_obs_unique" "MonthlyDHSWebObservation" "obs_id",
  .secondaryIndex "monthly_dhs_web_vuln_severity_index" "MonthlyDHSWebVulnerability" "severity",
  .secondaryIndex "monthly_dhs_web_scan_date_index" "MonthlyDHSWebScan" "scan_date"]

/-- The Departmental Monthly Network Scan Schema migration file. -/
def deptScanSchema : List SchemaStmt := [
  .uniqueConstraint "dept_scan_dept_unique" "DeptScanDepartment" "dept_id",
  .uniqueConstraint "dept_scan_host_unique" "DeptScanHost" "host_id",
  .uniqueConstraint "dept_scan_service_unique" "DeptScanService" "service_id",
  .uniqueConstraint "dept_scan_vuln_unique" "DeptScanVulnerability" "dept_vuln_id",
  .uniqueConstraint "dept_scan_scan_unique" "DeptScanScan" "scan_id",
  .uniqueConstraint "dept_scan_obs_unique" "DeptScanObservation" "obs_id",
  .secondaryIndex "dept_scan_vuln_severity_index" "DeptScanVulnerability" "severity",
  .secondaryIndex "dept_scan_scan_date_index" "DeptScanScan" "scan_date",
  .secondaryIndex "dept_scan_dept_name_index" "DeptScanDepartment" "name"]

/-- The `neo4j/init/00_common_indexes.cypher` migration file. -/
def commonIndexes : List SchemaStmt := [
  .secondaryIndex "weekly_dhs_host_hostname_index" "WeeklyDHSHost" "hostname",
  .secondaryIndex "dept_scan_host_ip_index" "DeptScanHost" "ip",
  .secondaryIndex "monthly_dhs_web_app_base_url_index" "MonthlyDHSWebApp" "base_url"]

/-- All persisted-schema statements of the repository. -/
def allSchema : List SchemaStmt :=
  weeklyDhsSchema ++ monthlyDhsWebSchema ++ deptScanSchema ++ commonIndexes

/-- Does the schema contain a uniqueness constraint on `property` of `label`? -/
def enforcesUnique (stmts : List SchemaStmt) (label property : String) : Bool :=
  stmts.any fun s =>
    match s with
    | .uniqueConstraint _ l p => l == label && p == property
    | .secondaryIndex _ _ _ => false

/-- Does the schema contain a (non-unique) secondary index on `property` of
`label`? -/
def hasSecondaryIndex (stmts : List SchemaStmt) (label property : String) : Bool :=
  stmts.any fun s =>
    match s with
    | .uniqueConstraint _ _ _ => false
    | .secondaryIndex _ l p => l == label && p == property

/-- The three report families. -/
inductive Family where
  | weekly
  | monthlyWeb
  | dept
deriving DecidableEq

/-- The Host node label of a family, when the family's schema has one.
The Weekly and Dept schemas declare Host labels; the MonthlyWeb schema has
no Host label at all (its per-target entity is `MonthlyDHSWebApp`). -/
def hostLabel : Family → Option String
  | .weekly => some "WeeklyDHSHost"
  | .monthlyWeb => none
  | .dept => some "DeptScanHost"

/-! ## Ingestion and analytics engine

The ingestion/graph-query backend is not present as code in the repository
(the spec designs it from the schema and the frontend's consumption
contract), so the definitions below are modelled from the specification:
the Row Normalizer (§4.2), the Graph Upsert Engine (§4.3), the Scan
Ingestion Orchestrator (§4.4) and the Analytics Query Service (§4.5).
Dates are abstracted to day numbers (the spec excludes "CSV-format parsing
minutiae" such as ISO-8601 parsing), and the deterministic vulnerability
hash is modelled as the normalized-lowercased key itself. -/

/-- One raw CSV row, as handed to the Row Normalizer: a mapping of the
columns the claims exercise.  `severity` is the raw string cell; dates are
abstracted to already-parsed day numbers. -/
structure RawRow where
  ip : String
  hostname : Option String
  plugin_id : Option String
  name : String
  severity : String
  cvss : Option Nat
  known_exploited : Bool
  ransomware_exploited : Bool
  first_seen : Option Nat
  last_seen : Option Nat
deriving DecidableEq

/-- Numeric value of a decimal digit character, `none` on a non-digit. -/
def digitVal (c : Char) : Option Nat :=
  if '0' ≤ c ∧ c ≤ '9' then some (c.toNat - '0'.toNat) else none

/-- Decimal parse of a character list, left to right; `none` when the
accumulator never started (empty input) or any character is not a digit. -/
def digitsValAux : Option Nat → List Char → Option Nat
  | acc, [] => acc
  | acc, c :: cs =>
    match digitVal c with
    | some d => digitsValAux (some ((acc.getD 0) * 10 + d)) cs
    | none => none

/-- Parse a string as a base-10 natural: all characters must be digits and
the string must be non-empty. -/
def strToNat? (s : String) : Option Nat := digitsValAux none s.data

/-- Modelled from the spec: "severity is parsed and range-checked (0–5)";
"severity ∈ {0,1,2,3,4,5}; any other value is a normalization error, not
silently clamped". -/
def parseSeverity (s : String) : Option Nat :=
  match strToNat? s with
  | some n => if n ≤ 5 then some n else none
  | none => none

/-- Split a character list on `'.'`. -/
def splitOnDot : List Char → List (List Char)
  | [] => [[]]
  | c :: cs =>
    let r := splitOnDot cs
    if c = '.' then [] :: r
    else
      match r with
      | [] => [[c]]
      | g :: gs => (c :: g) :: gs

/-- Modelled from the spec: "IP is validated as dotted-quad" — four
non-empty decimal groups, each at most 255, separated by dots. -/
def isDottedQuad (s : String) : Bool :=
  let parts := splitOnDot s.data
  parts.length == 4 && parts.all fun p =>
    match digitsValAux none p with
    | some n => decide (n ≤ 255)
    | none => false

/-- Modelled from the spec: `RowValidationError` names the offending column
and reason. -/
inductive RowError where
  | rowValidationError (column reason : String)
deriving DecidableEq

/-- ASCII lowercase of one character. -/
def lowerChar (c : Char) : Char :=
  if 'A' ≤ c ∧ c ≤ 'Z' then Char.ofNat (c.toNat + 32) else c

/-- ASCII lowercase of a string. -/
def lowerStr (s : String) : String := ⟨s.data.map lowerChar⟩

/-- Modelled from the spec: normalized-lowercased key used for the
deterministic vulnerability hash. -/
def normalizeKey (s : String) : String := lowerStr s

/-- A `NormalizedRow`: host, vulnerability and observation descriptors with
computed keys, as produced by the Row Normalizer. -/
structure NormalizedRow where
  hostIp : String
  hostname : Option String
  vulnId : String
  vulnName : String
  severity : Nat
  cvss : Option Nat
  known_exploited : Bool
  ransomware_exploited : Bool
  first_seen : Option Nat
  last_seen : Option Nat
  age_days : Option Nat
deriving DecidableEq

/-- Modelled from the spec (§4.2 Row Normalizer): column presence, dotted-quad
IP validation, severity parse-and-range-check, derived vulnerability key
`hash(plugin_id ?? name, normalized-lowercased)`, and
`age_days = scan_date − first_seen` clamped at 0.  Pure; fails with
`RowValidationError`. -/
def normalizeRow (scanDate : Nat) (r : RawRow) : Except RowError NormalizedRow :=
  if r.name = "" then
    .error (.rowValidationError "name" "missing required field")
  else if ¬ isDottedQuad r.ip then
    .error (.rowValidationError "ip" "malformed IP")
  else
    match parseSeverity r.severity with
    | none => .error (.rowValidationError "severity" "non-numeric or out-of-range severity")
    | some sev =>
      .ok { hostIp := r.ip
            hostname := r.hostname
            vulnId := normalizeKey (r.plugin_id.getD r.name)
            vulnName := r.name
            severity := sev
            cvss := r.cvss
            known_exploited := r.known_exploited
            ransomware_exploited := r.ransomware_exploited
            first_seen := r.first_seen
            last_seen := r.last_seen
            age_days := r.first_seen.map fun fs => scanDate - fs }

/-- A Host node: upserted by `ip`; `hostname` is a mutable field. -/
structure Host where
  ip : String
  hostname : Option String
deriving DecidableEq

/-- A Vulnerability node: upserted by `vuln_id`; severity, cvss and the
exploited flags are mutable (last write wins). -/
structure Vuln where
  vuln_id : String
  name : String
  severity : Nat
  cvss : Option Nat
  known_exploited : Bool
  ransomware_exploited : Bool
deriving DecidableEq

/-- An Observation node: write-once, scoped to its Scan, linked to exactly
one Scan, one Host and one Vulnerability. -/
structure Obs where
  obs_id : Nat
  scan_id : String
  host_ip : String
  vuln_id : String
  first_seen : Option Nat
  last_seen : Option Nat
  age_days : Option Nat
deriving DecidableEq

/-- A Scan node: created once per upload, immutable after creation. -/
structure Scan where
  scan_id : String
  scan_date : Nat
deriving DecidableEq

/-- The persisted property graph, per family: node sets plus the generator
for fresh `obs_id`s. -/
structure GraphState where
  scans : List Scan
  hosts : List Host
  vulns : List Vuln
  obs : List Obs
  nextObsId : Nat
deriving DecidableEq

/-- The empty graph. -/
def emptyGraph : GraphState := ⟨[], [], [], [], 0⟩

/-- Modelled from the spec (§4.3): merge-by-key for Host — "if the key
exists, update mutable fields (hostname, ...) to the new values; if absent,
create". -/
def upsertHost (hosts : List Host) (ip : String) (hostname : Option String) : List Host :=
  if hosts.any fun h => h.ip == ip then
    hosts.map fun h => if h.ip == ip then { h with hostname := hostname } else h
  else
    hosts ++ [{ ip := ip, hostname := hostname }]

/-- Modelled from the spec (§4.3): merge-by-key for Vulnerability — update
mutable fields (severity, cvss, exploited flags) if the key exists, create
otherwise. -/
def upsertVuln (vulns : List Vuln) (n : NormalizedRow) : List Vuln :=
  if vulns.any fun v => v.vuln_id == n.vulnId then
    vulns.map fun v =>
      if v.vuln_id == n.vulnId then
        { v with name := n.vulnName, severity := n.severity, cvss := n.cvss,
                 known_exploited := n.known_exploited,
                 ransomware_exploited := n.ransomware_exploited }
      else v
  else
    vulns ++ [{ vuln_id := n.vulnId, name := n.vulnName, severity := n.severity,
                cvss := n.cvss, known_exploited := n.known_exploited,
                ransomware_exploited := n.ransomware_exploited }]

/-- Modelled from the spec (§4.3 Graph Upsert Engine): one normalized row is
merged into the graph — Host and Vulnerability merge-by-key, plus a freshly
created Observation linked to the Scan, the Host and the Vulnerability. -/
def applyRow (g : GraphState) (scanId : String) (n : NormalizedRow) : GraphState :=
  { g with
    hosts := upsertHost g.hosts n.hostIp n.hostname
    vulns := upsertVuln g.vulns n
    obs := g.obs ++ [{ obs_id := g.nextObsId, scan_id := scanId,
                       host_ip := n.hostIp, vuln_id := n.vulnId,
                       first_seen := n.first_seen, last_seen := n.last_seen,
                       age_days := n.age_days }]
    nextObsId := g.nextObsId + 1 }

/-- The `Completed` summary emitted by the orchestrator. -/
structure UploadSummary where
  scan_id : String
  rows_total : Nat
  rows_ingested : Nat
  rows_failed : Nat
  errors : List RowError
deriving DecidableEq

/-- Terminal result of an upload: `Completed` with a summary, or the fatal
`DuplicateScanError` rejection. -/
inductive UploadResult where
  | completed (s : UploadSummary)
  | duplicateScanError
deriving DecidableEq

/-- Modelled from the spec (§4.4 `Ingesting`): rows stream through the
Normalizer and the Upsert Engine; a bad row is skipped and recorded while
ingestion continues.  Returns the final graph plus
(rows ingested, rows failed, collected errors). -/
def ingestRows (g : GraphState) (scanId : String) (scanDate : Nat) :
    List RawRow → GraphState × Nat × Nat × List RowError
  | [] => (g, 0, 0, [])
  | r :: rs =>
    match normalizeRow scanDate r with
    | .ok n =>
      let res := ingestRows (applyRow g scanId n) scanId scanDate rs
      (res.1, res.2.1 + 1, res.2.2.1, res.2.2.2)
    | .error e =>
      let res := ingestRows g scanId scanDate rs
      (res.1, res.2.1, res.2.2.1 + 1, e :: res.2.2.2)

/-- Modelled from the spec (§4.4 Scan Ingestion Orchestrator): rejects an
already-existing `scan_id` with `DuplicateScanError` before any graph write;
otherwise creates the Scan node, streams the rows, and emits the `Completed`
summary `{scan_id, rows_total, rows_ingested, rows_failed, errors[:50]}`. -/
def ingestScan (g : GraphState) (scanId : String) (scanDate : Nat)
    (rows : List RawRow) : GraphState × UploadResult :=
  if g.scans.any fun s => s.scan_id == scanId then
    (g, .duplicateScanError)
  else
    let g1 : GraphState :=
      { g with scans := g.scans ++ [{ scan_id := scanId, scan_date := scanDate }] }
    let res := ingestRows g1 scanId scanDate rows
    (res.1, .completed { scan_id := scanId, rows_total := rows.length,
                         rows_ingested := res.2.1, rows_failed := res.2.2.1,
                         errors := res.2.2.2.take 50 })

/-! ### Analytics Query Service (modelled from the spec, §4.5) -/

/-- One item of the paginated findings list: an observation joined with its
host and vulnerability attributes (mirrors the frontend's `Finding` type). -/
structure Finding where
  obs_id : Nat
  severity : Nat
  cvss : Option Nat
  first_seen : Option Nat
  last_seen : Option Nat
  age_days : Option Nat
  ip : String
  hostname : Option String
  vuln_name : String
  known_exploited : Bool
  ransomware_exploited : Bool
deriving DecidableEq

/-- Join one Observation with its Host and Vulnerability attributes. -/
def obsToFinding (g : GraphState) (o : Obs) : Finding :=
  let v := g.vulns.find? fun v => v.vuln_id == o.vuln_id
  let h := g.hosts.find? fun h => h.ip == o.host_ip
  { obs_id := o.obs_id
    severity := (v.map Vuln.severity).getD 0
    cvss := (v.map Vuln.cvss).getD none
    first_seen := o.first_seen
    last_seen := o.last_seen
    age_days := o.age_days
    ip := o.host_ip
    hostname := (h.map Host.hostname).getD none
    vuln_name := (v.map Vuln.name).getD ""
    known_exploited := (v.map Vuln.known_exploited).getD false
    ransomware_exploited := (v.map Vuln.ransomware_exploited).getD false }

/-- The observations owned by one Scan. -/
def scanObs (g : GraphState) (scanId : String) : List Obs :=
  g.obs.filter fun o => o.scan_id == scanId

/-- All findings of one Scan, joined but not yet filtered or sorted. -/
def scanFindings (g : GraphState) (scanId : String) : List Finding :=
  (scanObs g scanId).map (obsToFinding g)

/-- The `last_seen` sort key, with absent dates sorting last (day 0). -/
def lastSeenVal (f : Finding) : Nat := f.last_seen.getD 0

/-- Modelled from the spec: the findings ordering — severity descending,
then `last_seen` descending, with `obs_id` ascending as the documented final
tie-break making the order total. -/
def findingLE (a b : Finding) : Bool :=
  if a.severity = b.severity then
    if lastSeenVal a = lastSeenVal b then decide (a.obs_id ≤ b.obs_id)
    else decide (lastSeenVal b < lastSeenVal a)
  else decide (b.severity < a.severity)

/-- The findings ordering as a relation (for `List.insertionSort`). -/
def FindingOrder (a b : Finding) : Prop := findingLE a b = true

instance : DecidableRel FindingOrder := fun a b => by
  unfold FindingOrder; infer_instance

/-- Does `pat` start `hay` (character lists)? -/
def listStartsWith : List Char → List Char → Bool
  | _, [] => true
  | [], _ :: _ => false
  | a :: as, b :: bs => decide (a = b) && listStartsWith as bs

/-- Does `pat` occur as a contiguous run inside `hay` (character lists)? -/
def listContainsSub : List Char → List Char → Bool
  | [], pat => pat.isEmpty
  | c :: t, pat => listStartsWith (c :: t) pat || listContainsSub t pat

/-- Case-insensitive substring test (empty pattern matches everything). -/
def containsCI (hay pat : String) : Bool :=
  listContainsSub (hay.data.map lowerChar) (pat.data.map lowerChar)

/-- Modelled from the spec: `search` matches case-insensitively against ip,
hostname, or vulnerability name; an empty search matches every row. -/
def matchesSearch (search : String) (f : Finding) : Bool :=
  search == "" || containsCI f.ip search ||
    containsCI (f.hostname.getD "") search || containsCI f.vuln_name search

/-- Modelled from the spec (§4.5 `findings`): the full filtered, sorted
findings list of one scan for fixed filters. -/
def findingsAll (g : GraphState) (scanId : String) (minSev : Nat)
    (search : String) : List Finding :=
  List.insertionSort FindingOrder
    ((scanFindings g scanId).filter fun f =>
      decide (minSev ≤ f.severity) && matchesSearch search f)

/-- The paginated findings response (mirrors the frontend's
`FindingsResponse`). -/
structure FindingsResponse where
  total : Nat
  items : List Finding
  offset : Nat
  limit : Nat
deriving DecidableEq

/-- Modelled from the spec (§4.5): one page of the findings list. -/
def findingsQuery (g : GraphState) (scanId : String) (minSev : Nat)
    (search : String) (offset limit : Nat) : FindingsResponse :=
  let all := findingsAll g scanId minSev search
  { total := all.length
    items := (all.drop offset).take limit
    offset := offset
    limit := limit }

/-- The `summary(scan_id)` aggregate (mirrors the frontend's
`WeeklySummary`). -/
structure Summary where
  total_observations : Nat
  critical : Nat
  high : Nat
  host_count : Nat
  vuln_count : Nat
  known_exploited_count : Nat
  ransomware_exploited_count : Nat
deriving DecidableEq

/-- Modelled from the spec (§4.5 `summary`): aggregate counts over one
scan's observations. -/
def summary (g : GraphState) (scanId : String) : Summary :=
  let fs := scanFindings g scanId
  { total_observations := fs.length
    critical := (fs.filter fun f => f.severity == 5).length
    high := (fs.filter fun f => f.severity == 4).length
    host_count := ((fs.map Finding.ip).dedup).length
    vuln_count := (((scanObs g scanId).map Obs.vuln_id).dedup).length
    known_exploited_count := (fs.filter Finding.known_exploited).length
    ransomware_exploited_count := (fs.filter Finding.ransomware_exploited).length }

/-- One bucket of the severity histogram. -/
structure SeverityBucket where
  severity : Nat
  count : Nat
deriving DecidableEq

/-- Modelled from the spec (§4.5 `charts`): the severity-bucket histogram,
severity 0–5 → count. -/
def severityBuckets (g : GraphState) (scanId : String) : List SeverityBucket :=
  (List.range 6).map fun s =>
    { severity := s
      count := ((scanFindings g scanId).filter fun f => f.severity == s).length }

/-! ## Frontend embedding (`WeeklyDhsPage`)

The definitions below embed the client-side logic of the Weekly DHS page:
the query-parameter construction of `loadAllForScan` (with JavaScript
truthiness on `minSeverity`), `totalPages`, and the Prev/Next pagination
handlers. -/

/-- JavaScript truthiness of the `number | null` state `minSeverity`:
`null` and `0` are falsy. -/
def jsTruthy : Option Int → Bool
  | none => false
  | some v => v != 0

/-- The charts request query parameters built by `loadAllForScan`:
`minSeverity ? { min_severity: String(minSeverity) } : {}`. -/
def chartsQueryParams (minSeverity : Option Int) : List (String × String) :=
  if jsTruthy minSeverity then [("min_severity", toString (minSeverity.getD 0))]
  else []

/-- The findings request query parameters built by `loadAllForScan`:
the conditional `min_severity` and `search` entries followed by `offset`
and `limit`. -/
def findingsQueryParams (minSeverity : Option Int) (search : String)
    (resetPage : Bool) (page pageSize : Int) : List (String × String) :=
  (if jsTruthy minSeverity then [("min_severity", toString (minSeverity.getD 0))]
   else []) ++
  (if search != "" then [("search", search)] else []) ++
  [("offset", toString ((if resetPage then 0 else page) * pageSize)),
   ("limit", toString pageSize)]

/-- Does a parameter list contain the `min_severity` key? -/
def hasMinSeverity (params : List (String × String)) : Bool :=
  params.any fun p => p.1 == "min_severity"

/-- The page size of the findings table (`pageSize = 10`). -/
def pageSize : Nat := 10

/-- The page count `totalPages = Math.max(1, Math.ceil(findings.total / pageSize))`;
`(total + pageSize - 1) / pageSize` is ceiling division on naturals. -/
def totalPages (total : Nat) : Nat :=
  max 1 ((total + pageSize - 1) / pageSize)

/-- The Prev handler: `setPage((p) => Math.max(0, p - 1))`. -/
def prevPage (p : Int) : Int := max 0 (p - 1)

/-- The Next button's `disabled` condition: `page + 1 >= totalPages`. -/
def nextDisabled (p : Int) (tp : Nat) : Bool := decide (p + 1 ≥ (tp : Int))

/-- The Next handler: `setPage((p) => p + 1)`. -/
def nextPage (p : Int) : Int := p + 1

/-! ## Concrete fixtures for the example scenarios -/

/-- Row 1 of the 3-row Weekly CSV example (valid, severity 5). -/
def csvRow1 : RawRow :=
  { ip := "10.0.0.1", hostname := some "host1", plugin_id := some "P100",
    name := "Vuln A", severity := "5", cvss := some 9, known_exploited := true,
    ransomware_exploited := false, first_seen := some 100, last_seen := some 110 }

/-- Row 2 of the 3-row Weekly CSV example: invalid severity `"nine"`. -/
def csvRow2 : RawRow :=
  { csvRow1 with ip := "10.0.0.2", severity := "nine", name := "Vuln B",
                 plugin_id := some "P200" }

/-- Row 3 of the 3-row Weekly CSV example (valid, severity 3). -/
def csvRow3 : RawRow :=
  { csvRow1 with ip := "10.0.0.3", severity := "3", name := "Vuln C",
                 plugin_id := some "P300", last_seen := some 105 }

/-- The graph after ingesting the 3-row example CSV into an empty graph. -/
def gScenario : GraphState :=
  (ingestScan emptyGraph "scan1" 120 [csvRow1, csvRow2, csvRow3]).1

/-- First of the two rows sharing ip `10.0.0.5` (hostname `web1`). -/
def hostRowA : RawRow := { csvRow1 with ip := "10.0.0.5", hostname := some "web1" }

/-- Second of the two rows sharing ip `10.0.0.5` (hostname `web1-updated`). -/
def hostRowB : RawRow :=
  { csvRow1 with ip := "10.0.0.5", hostname := some "web1-updated" }

/-- A graph that already contains a completed Scan node `scan1`. -/
def gWithScan : GraphState := ⟨[⟨"scan1", 120⟩], [], [], [], 0⟩

/-! ## Claims -/

/-- C1, as the spec states it, fails on the constraint files: the Dept
family's Host label (`DeptScanHost`) carries a uniqueness constraint on
`host_id` only, while `ip` merely has the non-unique index
`dept_scan_host_ip_index` — so not every family enforces uniqueness of
`Host.ip`.  (The MonthlyWeb schema has no Host label at all.) -/
theorem C1_counterexample :
    hostLabel Family.dept = some "DeptScanHost" ∧
    enforcesUnique allSchema "DeptScanHost" "ip" = false ∧
    hasSecondaryIndex allSchema "DeptScanHost" "ip" = true := by decide

/-- C1 (amended): per the constraint files, the Weekly family enforces
uniqueness of `Host.ip`; the Dept family enforces uniqueness of
`Host.host_id` and only a non-unique index on `ip`; the MonthlyWeb family
has no Host label (its per-target entity `MonthlyDHSWebApp` is unique on
`app_id`). -/
theorem C1_host_uniqueness_per_family :
    enforcesUnique allSchema "WeeklyDHSHost" "ip" = true ∧
    enforcesUnique allSchema "DeptScanHost" "host_id" = true ∧
    enforcesUnique allSchema "DeptScanHost" "ip" = false ∧
    hasSecondaryIndex allSchema "DeptScanHost" "ip" = true ∧
    hostLabel Family.monthlyWeb = none ∧
    enforcesUnique allSchema "MonthlyDHSWebApp" "app_id" = true := by decide

/-- C2: re-uploading a scan whose `scan_id` already exists is rejected with
`DuplicateScanError` before any graph write — the resulting graph state is
exactly the state before the upload. -/
theorem C2_duplicate_scan_rejected (g : GraphState) (scanId : String)
    (scanDate : Nat) (rows : List RawRow)
    (h : (g.scans.any fun s => s.scan_id == scanId) = true) :
    ingestScan g scanId scanDate rows = (g, .duplicateScanError) := by
  unfold ingestScan
  rw [if_pos h]

/-- Witness for C2 at a concrete graph already holding Scan `scan1`. -/
theorem C2_witness :
    ingestScan gWithScan "scan1" 121 [] = (gWithScan, .duplicateScanError) :=
  C2_duplicate_scan_rejected gWithScan "scan1" 121 [] (by decide)

/-- C9: in `loadAllForScan`, a `minSeverity` of `null` or `0` produces no
`min_severity` query parameter (JavaScript truthiness drops `0`), making a
minimum-severity filter of 0 indistinguishable from no filter, while
`minSeverity` 3, 4 or 5 yields `min_severity` equal to that value in both
the charts and the findings parameters. -/
theorem C9_min_severity_truthiness (search : String) (rp : Bool)
    (page ps : Int) :
    hasMinSeverity (findingsQueryParams none search rp page ps) = false ∧
    hasMinSeverity (findingsQueryParams (some 0) search rp page ps) = false ∧
    chartsQueryParams none = [] ∧
    chartsQueryParams (some 0) = [] ∧
    findingsQueryParams (some 0) search rp page ps
      = findingsQueryParams none search rp page ps ∧
    chartsQueryParams (some 0) = chartsQueryParams none ∧
    (findingsQueryParams (some 3) search rp page ps).lookup "min_severity"
      = some "3" ∧
    (findingsQueryParams (some 4) search rp page ps).lookup "min_severity"
      = some "4" ∧
    (findingsQueryParams (some 5) search rp page ps).lookup "min_severity"
      = some "5" ∧
    chartsQueryParams (some 3) = [("min_severity", "3")] ∧
    chartsQueryParams (some 4) = [("min_severity", "4")] ∧
    chartsQueryParams (some 5) = [("min_severity", "5")] := by
  have h3 : toString (3 : Int) = "3" := by decide
  have h4 : toString (4 : Int) = "4" := by decide
  have h5 : toString (5 : Int) = "5" := by decide
  refine ⟨?_, ?_, by decide, by decide, ?_, by decide, ?_, ?_, ?_, ?_, ?_, ?_⟩ <;>
    simp [findingsQueryParams, chartsQueryParams, jsTruthy, hasMinSeverity,
          List.lookup, h3, h4, h5]

/-- C10: the Weekly DHS page's pagination state transitions preserve
`0 ≤ page ≤ totalPages − 1`: `totalPages` is at least 1, the Prev handler
never drives `page` negative, the Next button is disabled exactly when
`page + 1 ≥ totalPages`, and an enabled Next keeps `page` at most
`totalPages − 1`. -/
theorem C10_pagination_invariant (total : Nat) (p : Int) :
    1 ≤ totalPages total ∧
    (0 ≤ p → p ≤ (totalPages total : Int) - 1 →
      0 ≤ prevPage p ∧ prevPage p ≤ (totalPages total : Int) - 1) ∧
    (nextDisabled p (totalPages total) = false ↔
      p + 1 < (totalPages total : Int)) ∧
    (0 ≤ p → nextDisabled p (totalPages total) = false →
      0 ≤ nextPage p ∧ nextPage p ≤ (totalPages total : Int) - 1) := by
  have h1 : 1 ≤ totalPages total := le_max_left 1 _
  have hd : nextDisabled p (totalPages total) = false ↔
      ¬ (p + 1 ≥ (totalPages total : Int)) := by
    unfold nextDisabled
    exact decide_eq_false_iff_not
  unfold prevPage nextPage
  refine ⟨h1, fun h0 hp => ⟨?_, ?_⟩, ?_, fun h0 hnd => ⟨?_, ?_⟩⟩
  · omega
  · omega
  · rw [hd]; omega
  · omega
  · rw [hd] at hnd; omega

/-- Witness for C10 at `total = 25` (3 pages) and `page = 1`. -/
theorem C10_witness :
    1 ≤ totalPages 25 ∧
    (0 ≤ prevPage 1 ∧ prevPage 1 ≤ (totalPages 25 : Int) - 1) ∧
    (0 ≤ nextPage 1 ∧ nextPage 1 ≤ (totalPages 25 : Int) - 1) :=
  ⟨(C10_pagination_invariant 25 1).1,
   (C10_pagination_invariant 25 1).2.1 (by decide) (by decide),
   (C10_pagination_invariant 25 1).2.2.2 (by decide) (by decide)⟩

/-- C3: the Row Normalizer accepts a severity only when it parses to an
integer in {0,…,5} (never clamped): an unparseable severity makes the row
fail with a `RowValidationError`, an otherwise-valid row with in-range
severity succeeds carrying exactly that severity, and the 3-row example
upload with severity `"nine"` in row 2 reports
`rows_total=3, rows_ingested=2, rows_failed=1` with exactly 2 findings. -/
theorem C3_severity_validation :
    (∀ (scanDate : Nat) (r : RawRow), parseSeverity r.severity = none →
      ∃ col reason,
        normalizeRow scanDate r = .error (.rowValidationError col reason)) ∧
    (∀ (scanDate : Nat) (r : RawRow) (k : Nat),
      r.name ≠ "" → isDottedQuad r.ip = true → parseSeverity r.severity = some k →
      ∃ n, normalizeRow scanDate r = .ok n ∧ n.severity = k) ∧
    (∀ (s : String) (k : Nat), parseSeverity s = some k → k ≤ 5) ∧
    (ingestScan emptyGraph "scan1" 120 [csvRow1, csvRow2, csvRow3]).2 =
      .completed ⟨"scan1", 3, 2, 1,
        [.rowValidationError "severity" "non-numeric or out-of-range severity"]⟩ ∧
    (findingsQuery gScenario "scan1" 0 "" 0 10).total = 2 ∧
    (findingsQuery gScenario "scan1" 0 "" 0 10).items.length = 2 := by
  refine ⟨?_, ?_, ?_, by decide, by decide, by decide⟩
  · intro scanDate r h
    unfold normalizeRow
    split
    · exact ⟨_, _, rfl⟩
    · split
      · exact ⟨_, _, rfl⟩
      · rw [h]
        exact ⟨_, _, rfl⟩
  · intro scanDate r k h1 h2 h3
    unfold normalizeRow
    rw [if_neg h1, if_neg (by simp [h2]), h3]
    exact ⟨_, rfl, rfl⟩
  · intro s k h
    unfold parseSeverity at h
    split at h
    · split at h
      · injection h with h'
        omega
      · exact absurd h (by simp)
    · exact absurd h (by simp)

/-- Witness for C3: row 2 (severity `"nine"`) fails normalization with a
`RowValidationError`; row 1 (severity `"5"`) normalizes with severity 5. -/
theorem C3_witness :
    (∃ col reason,
      normalizeRow 120 csvRow2 = .error (.rowValidationError col reason)) ∧
    (∃ n, normalizeRow 120 csvRow1 = .ok n ∧ n.severity = 5) ∧ 5 ≤ 5 :=
  ⟨C3_severity_validation.1 120 csvRow2 (by decide),
   C3_severity_validation.2.1 120 csvRow1 5 (by decide) (by decide) (by decide),
   C3_severity_validation.2.2.1 "5" 5 (by decide)⟩

/-- C5: for every scan and minimum severity `k`, the findings list contains
only rows of severity at least `k`, and every finding returned for
`min_severity=5` is also returned for `min_severity=4`. -/
theorem C5_min_severity_filter (g : GraphState) (scanId : String) (k : Nat)
    (search : String) :
    ((findingsAll g scanId k search).all fun f =>
      decide (k ≤ f.severity)) = true ∧
    ((findingsAll g scanId 5 search).all fun f =>
      decide (f ∈ findingsAll g scanId 4 search)) = true := by
  constructor
  · rw [List.all_eq_true]
    intro f hf
    have hm : f ∈ (scanFindings g scanId).filter fun f =>
        decide (k ≤ f.severity) && matchesSearch search f :=
      (List.perm_insertionSort FindingOrder _).mem_iff.mp hf
    have := List.of_mem_filter hm
    simp only [Bool.and_eq_true] at this
    exact this.1
  · rw [List.all_eq_true]
    intro f hf
    have hm : f ∈ (scanFindings g scanId).filter fun f =>
        decide (5 ≤ f.severity) && matchesSearch search f :=
      (List.perm_insertionSort FindingOrder _).mem_iff.mp hf
    have hmem := List.mem_of_mem_filter hm
    have hp := List.of_mem_filter hm
    simp only [Bool.and_eq_true, decide_eq_true_eq] at hp
    have h4 : f ∈ (scanFindings g scanId).filter fun f =>
        decide (4 ≤ f.severity) && matchesSearch search f := by
      refine List.mem_filter.mpr ⟨hmem, ?_⟩
      simp only [Bool.and_eq_true, decide_eq_true_eq]
      exact ⟨by omega, hp.2⟩
    simp only [decide_eq_true_eq]
    exact (List.perm_insertionSort FindingOrder _).mem_iff.mpr h4

/-- Auxiliary: the merge-by-key host update never changes a host's key. -/
theorem upsertHost_key_fix (ip : String) (hn : Option String) (h : Host) :
    (if h.ip == ip then { h with hostname := hn } else h).ip = h.ip := by
  split <;> rfl

/-- C7: host merge-by-key is idempotent — a second upsert of the same key
with the same attributes changes nothing; upserting into an empty host set
creates exactly one node; and the two-row upload sharing ip `10.0.0.5` with
hostnames `web1` then `web1-updated` yields exactly one Host node carrying
`web1-updated` together with two Observations. -/
theorem C7_host_merge_idempotent :
    (∀ (hosts : List Host) (ip : String) (hn : Option String),
      upsertHost (upsertHost hosts ip hn) ip hn = upsertHost hosts ip hn) ∧
    (∀ (ip : String) (hn : Option String),
      upsertHost [] ip hn = [{ ip := ip, hostname := hn }]) ∧
    (ingestScan emptyGraph "scan1" 120 [hostRowA, hostRowB]).1.hosts
      = [{ ip := "10.0.0.5", hostname := some "web1-updated" }] ∧
    (scanObs (ingestScan emptyGraph "scan1" 120 [hostRowA, hostRowB]).1
      "scan1").length = 2 := by
  refine ⟨?_, by intro ip hn; rfl, by decide, by decide⟩
  intro hosts ip hn
  unfold upsertHost
  by_cases hc : (hosts.any fun h => h.ip == ip) = true
  · rw [if_pos hc]
    have hany : ((hosts.map fun h =>
        if h.ip == ip then { h with hostname := hn } else h).any
          fun h => h.ip == ip) = true := by
      rw [List.any_map]
      have : ((fun h : Host => h.ip == ip) ∘ fun h =>
          if h.ip == ip then { h with hostname := hn } else h)
            = fun h : Host => h.ip == ip := by
        funext h
        by_cases hh : (h.ip == ip) = true
        · simp only [Function.comp]
          rw [if_pos hh]
        · simp only [Function.comp]
          rw [if_neg hh]
      rw [this]
      exact hc
    rw [if_pos hany, List.map_map]
    have : ((fun h : Host => if h.ip == ip then { h with hostname := hn } else h) ∘
        fun h : Host => if h.ip == ip then { h with hostname := hn } else h)
          = fun h : Host => if h.ip == ip then { h with hostname := hn } else h := by
      funext h
      by_cases hh : (h.ip == ip) = true
      · simp [Function.comp, hh]
      · simp [Function.comp, hh]
    rw [this]
  · rw [if_neg hc]
    have hfix : ∀ h ∈ hosts,
        (if h.ip == ip then { h with hostname := hn } else h) = h := by
      intro h hm
      have := List.any_eq_false.mp (Bool.not_eq_true _ ▸ hc) h hm
      rw [if_neg (by simp_all)]
    have hany : ((hosts ++ [({ ip := ip, hostname := hn } : Host)]).any
        fun h => h.ip == ip) = true := by
      rw [List.any_append]
      simp
    rw [if_pos hany, List.map_append]
    congr 1
    · calc hosts.map (fun h =>
            if h.ip == ip then { h with hostname := hn } else h)
          = hosts.map id := List.map_congr_left fun a ha => hfix a ha
        _ = hosts := List.map_id hosts
    · simp

/-- Concatenating the first `n` pages of size `limit` of a list gives its
first `n * limit` elements. -/
theorem join_pages_take {α : Type} (l : List α) (limit : Nat) :
    ∀ n : Nat,
      ((List.range n).map fun i => (l.drop (i * limit)).take limit).flatten
        = l.take (n * limit) := by
  intro n
  induction n with
  | zero => simp
  | succ m ih =>
    rw [List.range_succ, List.map_append, List.flatten_append, ih]
    simp only [List.map_cons, List.map_nil, List.flatten_cons, List.flatten_nil,
      List.append_nil]
    rw [Nat.succ_mul, List.take_add]

/-- Ceiling division rounds up: `n ≤ ⌈n / k⌉ * k`. -/
theorem le_ceil_mul (n k : Nat) (hk : 0 < k) : n ≤ ((n + k - 1) / k) * k := by
  rcases Nat.eq_zero_or_pos n with hn | hn
  · simp [hn]
  · have h1 : (n + k - 1) / k = (n - 1) / k + 1 := by
      have he : n + k - 1 = (n - 1) + k := by omega
      rw [he, Nat.add_div_right _ hk]
    rw [h1, Nat.add_mul, Nat.one_mul]
    have h2 := Nat.div_add_mod (n - 1) k
    have h3 := Nat.mod_lt (n - 1) hk
    have h4 : k * ((n - 1) / k) = ((n - 1) / k) * k := Nat.mul_comm _ _
    omega

/-- C4: for fixed filters, concatenating the findings pages at offsets
`0, limit, 2*limit, …` (up to `⌈total/limit⌉` pages) reproduces the full
findings list — same items, same order — and every page reports the same
total count. -/
theorem C4_pagination (g : GraphState) (scanId : String) (minSev : Nat)
    (search : String) (limit : Nat) (hl : 0 < limit) :
    ((List.range
        (((findingsQuery g scanId minSev search 0 limit).total + limit - 1)
          / limit)).map
      fun i => (findingsQuery g scanId minSev search (i * limit) limit).items).flatten
      = findingsAll g scanId minSev search ∧
    (∀ off : Nat, (findingsQuery g scanId minSev search off limit).total
      = (findingsAll g scanId minSev search).length) := by
  refine ⟨?_, fun off => rfl⟩
  have hitems : ∀ i : Nat,
      (findingsQuery g scanId minSev search (i * limit) limit).items
        = ((findingsAll g scanId minSev search).drop (i * limit)).take limit :=
    fun i => rfl
  simp only [hitems]
  have htotal : (findingsQuery g scanId minSev search 0 limit).total
      = (findingsAll g scanId minSev search).length := rfl
  rw [htotal, join_pages_take]
  exact List.take_of_length_le (le_ceil_mul _ _ hl)

/-- Witness for C4 on the example graph with page size 1 (two pages). -/
theorem C4_witness :
    ((List.range
        (((findingsQuery gScenario "scan1" 0 "" 0 1).total + 1 - 1) / 1)).map
      fun i => (findingsQuery gScenario "scan1" 0 "" (i * 1) 1).items).flatten
      = findingsAll gScenario "scan1" 0 "" ∧
    (∀ off : Nat, (findingsQuery gScenario "scan1" 0 "" off 1).total
      = (findingsAll gScenario "scan1" 0 "").length) :=
  C4_pagination gScenario "scan1" 0 "" 1 (by decide)

/-- Pointwise sums of mapped lists add. -/
theorem sum_map_add {α : Type} (L : List α) (a b : α → Nat) :
    (L.map fun s => a s + b s).sum = (L.map a).sum + (L.map b).sum := by
  induction L with
  | nil => rfl
  | cons x t ih =>
    simp only [List.map_cons, List.sum_cons, ih]
    omega

/-- Summing the indicator of `k` over `range n` counts `k` once when
`k < n`. -/
theorem sum_ite_range (k : Nat) : ∀ n : Nat,
    ((List.range n).map fun s => if k = s then 1 else 0).sum
      = if k < n then 1 else 0 := by
  intro n
  induction n with
  | zero => simp
  | succ m ih =>
    rw [List.range_succ, List.map_append, List.sum_append, ih]
    simp only [List.map_cons, List.map_nil, List.sum_cons, List.sum_nil]
    split_ifs <;> omega

/-- A list of findings with valid severities is exactly covered by the six
severity buckets. -/
theorem length_eq_sum_buckets (l : List Finding)
    (h : ∀ f ∈ l, f.severity ≤ 5) :
    ((List.range 6).map fun s =>
      (l.filter fun f => f.severity == s).length).sum = l.length := by
  induction l with
  | nil => simp
  | cons f t ih =>
    have hf : f.severity ≤ 5 := h f (List.mem_cons_self f t)
    have ht : ∀ x ∈ t, x.severity ≤ 5 :=
      fun x hx => h x (List.mem_cons_of_mem f hx)
    have hstep : ∀ s : Nat, ((f :: t).filter fun x => x.severity == s).length
        = (if f.severity = s then 1 else 0)
          + (t.filter fun x => x.severity == s).length := by
      intro s
      rw [List.filter_cons]
      by_cases hs : f.severity = s
      · rw [if_pos (by simp [hs]), if_pos hs, List.length_cons]
        omega
      · rw [if_neg (by simp [hs]), if_neg hs]
        omega
    calc ((List.range 6).map fun s =>
            ((f :: t).filter fun x => x.severity == s).length).sum
        = ((List.range 6).map fun s => (if f.severity = s then 1 else 0)
            + (t.filter fun x => x.severity == s).length).sum := by
          congr 1
          exact List.map_congr_left fun s _ => hstep s
      _ = ((List.range 6).map fun s => if f.severity = s then 1 else 0).sum
            + ((List.range 6).map fun s =>
                (t.filter fun x => x.severity == s).length).sum :=
          sum_map_add _ _ _
      _ = 1 + t.length := by
          rw [sum_ite_range, ih ht, if_pos (by omega)]
      _ = (f :: t).length := by
          rw [List.length_cons]
          omega

/-- All vulnerability nodes of a graph carry a valid (0–5) severity.
Ingestion only creates vulnerabilities through the normalizer's
range-checked severity, so every reachable graph satisfies this. -/
def SevWF (g : GraphState) : Prop := ∀ v ∈ g.vulns, v.severity ≤ 5

/-- Under `SevWF`, every joined finding has severity at most 5 (a missing
vulnerability joins as severity 0). -/
theorem scanFindings_sev_le (g : GraphState) (scanId : String) (h : SevWF g) :
    ∀ f ∈ scanFindings g scanId, f.severity ≤ 5 := by
  intro f hf
  rcases List.mem_map.mp hf with ⟨o, _, rfl⟩
  show (((g.vulns.find? fun v => v.vuln_id == o.vuln_id).map
    Vuln.severity).getD 0) ≤ 5
  cases hv : g.vulns.find? fun v => v.vuln_id == o.vuln_id with
  | none => simp
  | some v =>
    simp only [Option.map_some', Option.getD_some]
    exact h v (List.mem_of_find?_eq_some hv)

/-- C6: `summary(scan_id).total_observations` equals the sum of
`charts(scan_id).severity_buckets[*].count`, for every graph whose
vulnerability severities are in range. -/
theorem C6_summary_matches_buckets (g : GraphState) (scanId : String)
    (h : SevWF g) :
    (summary g scanId).total_observations
      = ((severityBuckets g scanId).map SeverityBucket.count).sum := by
  have hb : (severityBuckets g scanId).map SeverityBucket.count
      = (List.range 6).map fun s =>
          ((scanFindings g scanId).filter fun f => f.severity == s).length := by
    unfold severityBuckets
    rw [List.map_map]
    rfl
  rw [hb, length_eq_sum_buckets _ (scanFindings_sev_le g scanId h)]
  rfl

/-- Witness for C6 on the ingested example graph. -/
theorem C6_witness :
    (summary gScenario "scan1").total_observations
      = ((severityBuckets gScenario "scan1").map SeverityBucket.count).sum :=
  C6_summary_matches_buckets gScenario "scan1" (by unfold SevWF; decide)

/-- Unfolding of `findingLE` to an arithmetic lexicographic comparison. -/
theorem findingLE_iff (a b : Finding) :
    findingLE a b = true ↔
      (b.severity < a.severity ∨ (a.severity = b.severity ∧
        (lastSeenVal b < lastSeenVal a ∨
          (lastSeenVal a = lastSeenVal b ∧ a.obs_id ≤ b.obs_id)))) := by
  unfold findingLE
  by_cases h1 : a.severity = b.severity
  · rw [if_pos h1]
    by_cases h2 : lastSeenVal a = lastSeenVal b
    · rw [if_pos h2]
      simp only [decide_eq_true_eq]
      omega
    · rw [if_neg h2]
      simp only [decide_eq_true_eq]
      omega
  · rw [if_neg h1]
    simp only [decide_eq_true_eq]
    omega

instance : IsTotal Finding FindingOrder :=
  ⟨fun a b => by
    unfold FindingOrder
    rw [findingLE_iff, findingLE_iff]
    omega⟩

instance : IsTrans Finding FindingOrder :=
  ⟨fun a b c hab hbc => by
    unfold FindingOrder at hab hbc ⊢
    rw [findingLE_iff] at hab hbc ⊢
    omega⟩

/-- C8: the findings list is sorted by severity descending, then
`last_seen` descending, with `obs_id` as the final tie-break; the order is
total and antisymmetric on the sort key, hence deterministic. -/
theorem C8_findings_order (g : GraphState) (scanId : String) (minSev : Nat)
    (search : String) :
    List.Sorted FindingOrder (findingsAll g scanId minSev search) ∧
    (∀ a b : Finding, FindingOrder a b ∨ FindingOrder b a) ∧
    (∀ a b : Finding, FindingOrder a b → FindingOrder b a →
      a.severity = b.severity ∧ lastSeenVal a = lastSeenVal b ∧
        a.obs_id = b.obs_id) := by
  refine ⟨?_, fun a b => IsTotal.total a b, fun a b hab hba => ?_⟩
  · unfold findingsAll
    exact List.sorted_insertionSort FindingOrder _
  · unfold FindingOrder at hab hba
    rw [findingLE_iff] at hab hba
    omega

/-- A sample finding used to instantiate C8's tie-break antisymmetry. -/
def sampleFinding : Finding :=
  { obs_id := 0, severity := 5, cvss := none, first_seen := none,
    last_seen := none, age_days := none, ip := "10.0.0.1", hostname := none,
    vuln_name := "Vuln A", known_exploited := false,
    ransomware_exploited := false }

/-- Witness for C8 on the ingested example graph. -/
theorem C8_witness :
    List.Sorted FindingOrder (findingsAll gScenario "scan1" 0 "") ∧
    sampleFinding.severity = sampleFinding.severity :=
  ⟨(C8_findings_order gScenario "scan1" 0 "").1,
   ((C8_findings_order gScenario "scan1" 0 "").2.2 sampleFinding sampleFinding
     (by decide) (by decide)).1⟩

end InsightGuard
